import Mathlib

/-!
Verification development for the app-store readiness project scanner
(scripts/check_project.py).

The scanner is embedded shallowly:

* A project tree is a value of type FS: the list of filesystem entries under
  the scanned root (files and directories, in discovery order, with their
  text content), together with the root's absolute path string and the three
  black-box document parsers the script calls (json.loads, plistlib.load,
  xml.etree.ElementTree.parse).  The spec treats these parsers as external
  collaborators, so they are components of the state: each maps raw text to
  an optional structured document (none models a parse failure).
* File reads model OS-level failures: an entry whose text is none is a file
  that exists but whose read raises (OSError).  Reading a directory as text
  likewise fails.  Undecodable bytes are not modelled separately.
* Python functions that can propagate an uncaught exception are embedded in
  Except Unit; a result of Except.error marks an uncaught exception escaping
  the function.  Exceptions the script catches locally are folded into the
  branch structure at the place of the handler, keeping any findings already
  appended to the issues list before the failing statement, exactly as the
  mutable-list code does.
* Machine strings are Lean String, severities are the closed three-value
  enumeration the script actually writes, and every definition follows the
  corresponding lines of check_project.py, noted throughout.
-/

namespace CheckProject

/-- Severity of a finding.  The script only ever writes the three literal
strings "pass", "warning" and "error" (helpers ok/warn/error of each check). -/
inductive Severity where
  | pass
  | warning
  | error
deriving DecidableEq, Repr

/-- One finding, as built by the per-check helpers (e.g. lines 122-129):
a dict with keys platform, category, message, severity. -/
structure Finding where
  platform : String
  category : String
  message : String
  severity : Severity
deriving DecidableEq, Repr

/-- Helper warn(category, message): severity "warning" (default argument). -/
def warnF (platform category message : String) : Finding :=
  ⟨platform, category, message, Severity.warning⟩

/-- Helper error(category, message): warn with severity "error". -/
def errF (platform category message : String) : Finding :=
  ⟨platform, category, message, Severity.error⟩

/-- Helper ok(category, message): severity "pass". -/
def okF (platform category message : String) : Finding :=
  ⟨platform, category, message, Severity.pass⟩

/-- Result of detect_project_type (lines 23-65): framework tag and platform
list.  Every return path of the function has set framework, so it is total
here. -/
structure Sig where
  framework : String
  platforms : List String
deriving DecidableEq, Repr

/-- The summary dict of the report (lines 574-578). -/
structure Summary where
  errors : Nat
  warnings : Nat
  passes : Nat
deriving DecidableEq, Repr

/-- The report dict (lines 571-580). -/
structure Report where
  project_root : String
  project_type : Sig
  summary : Summary
  issues : List Finding
deriving DecidableEq, Repr

/-- A path below the project root, as its list of components. -/
abbrev Path := List String

/-- Kind of a filesystem entry. -/
inductive EntryKind where
  | file
  | dir
deriving DecidableEq, Repr

/-- One filesystem entry below the root.  text is the content a successful
read_text returns; none on a file models a read that raises OSError. -/
structure Entry where
  path : Path
  kind : EntryKind
  text : Option String
deriving DecidableEq, Repr

/-- JSON documents, as returned by the black-box json.loads. -/
inductive JValue where
  | null
  | bool (b : Bool)
  | num (n : Int)
  | str (s : String)
  | arr (l : List JValue)
  | obj (l : List (String × JValue))

/-- Property-list documents, as returned by the black-box plistlib.load. -/
inductive PVal where
  | str (s : String)
  | int (n : Int)
  | bool (b : Bool)
  | arr (l : List PVal)
  | dict (l : List (String × PVal))

/-- XML elements, as returned by the black-box ElementTree parser: tag,
attributes (with fully qualified attribute names) and child elements. -/
inductive XNode where
  | mk (tag : String) (attrs : List (String × String)) (children : List XNode)

def XNode.tag : XNode → String
  | .mk t _ _ => t

def XNode.attrs : XNode → List (String × String)
  | .mk _ a _ => a

def XNode.children : XNode → List XNode
  | .mk _ _ c => c

/-- The scanned project: entries in discovery order, the absolute root path
string (str(root)), and the three external parsers. -/
structure FS where
  rootStr : String
  entries : List Entry
  jparse : String → Option JValue
  pparse : String → Option PVal
  xparse : String → Option XNode

/-- First entry at a path, if any. -/
def entryAt (fs : FS) (p : Path) : Option Entry :=
  fs.entries.find? (fun e => e.path = p)

/-- Path.exists(): true for files and directories alike. -/
def pathExists (fs : FS) (p : Path) : Bool :=
  (entryAt fs p).isSome

/-- Path.read_text(): some content on success; none when the read raises
(missing entry, unreadable file, or a directory). -/
def readText (fs : FS) (p : Path) : Option String :=
  match entryAt fs p with
  | some e => match e.kind with
    | EntryKind.file => e.text
    | EntryKind.dir => none
  | none => none

/-- Boolean list-prefix test. -/
def listStarts [DecidableEq α] : List α → List α → Bool
  | [], _ => true
  | _ :: _, [] => false
  | a :: as, b :: bs => a = b && listStarts as bs

/-- Boolean contiguous-sublist test: does the needle occur in the haystack. -/
def listInfix [DecidableEq α] (needle : List α) : List α → Bool
  | [] => listStarts needle []
  | b :: bs => listStarts needle (b :: bs) || listInfix needle bs

/-- Boolean list-suffix test. -/
def listEnds [DecidableEq α] (suffix l : List α) : Bool :=
  listStarts suffix.reverse l.reverse

/-- Python substring containment: sub in s. -/
def strContains (s sub : String) : Bool :=
  listInfix sub.data s.data

/-- str.startswith, over the character lists. -/
def strStarts (s pre : String) : Bool :=
  listStarts pre.data s.data

/-- str.endswith, over the character lists. -/
def strEnds (s suf : String) : Bool :=
  listStarts suf.data.reverse s.data.reverse

/-- str.lower over the character list. -/
def lowerStr (s : String) : String :=
  String.mk (s.data.map Char.toLower)

/-- ", ".join and friends. -/
def joinSep (sep : String) : List String → String
  | [] => ""
  | [a] => a
  | a :: rest => a ++ sep ++ joinSep sep rest

/-- Path components joined with the separator: p.relative_to(root) rendered
as a string, used inside messages. -/
def joinPath (p : Path) : String :=
  joinSep "/" p

/-- str(p) for an absolute path below the root: the root string, a
separator, and the relative components. -/
def fullPath (fs : FS) (p : Path) : String :=
  fs.rootStr ++ "/" ++ joinPath p

/-- Last path component (Path.name). -/
def lastName (p : Path) : String :=
  p.getLast? |>.getD ""

/-- root.glob of a double-star pattern with a literal final name
(Info.plist, PrivacyInfo.xcprivacy, AppIcon.appiconset): every entry of any
kind, at any depth, whose last component is the name, in discovery order. -/
def globName (fs : FS) (name : String) : List Path :=
  (fs.entries.filter (fun e => lastName e.path = name)).map (fun e => e.path)

/-- root.glob of a double-star pattern with a final wildcard extension
(that is, a pattern of shape **/*.swift): entries whose last component ends
with the suffix. -/
def globExtension (fs : FS) (suffix : String) : List Path :=
  (fs.entries.filter (fun e => strEnds (lastName e.path) suffix)).map (fun e => e.path)

/-- root.glob of a top-level wildcard pattern such as *.xcodeproj: direct
children whose name ends with the suffix. -/
def globTopEnds (fs : FS) (suffix : String) : List Path :=
  (fs.entries.filter
    (fun e => e.path.length = 1 && strEnds (lastName e.path) suffix)).map (fun e => e.path)

/-- root.glob(".env*"): direct children whose name starts with .env. -/
def globTopStarts (fs : FS) (pre : String) : List Path :=
  (fs.entries.filter
    (fun e => e.path.length = 1 && strStarts (lastName e.path) pre)).map (fun e => e.path)

/-- root.glob("**/src/main/AndroidManifest.xml"): entries whose path ends
with the given component sequence. -/
def globEndsSeq (fs : FS) (suffix : Path) : List Path :=
  (fs.entries.filter (fun e => listEnds suffix e.path)).map (fun e => e.path)

/-- base.glob("mipmap-*"): direct children of base whose name starts with
the prefix of the pattern. -/
def globChildStarts (fs : FS) (base : Path) (pre : String) : List Path :=
  (fs.entries.filter
    (fun e => e.path.dropLast = base && strStarts (lastName e.path) pre)).map (fun e => e.path)

/-- res_dir.glob("mipmap-anydpi*/**/ic_launcher.xml"): entries below a
direct child of base named mipmap-anydpi..., at any further depth, with last
component ic_launcher.xml. -/
def globAdaptive (fs : FS) (base : Path) : List Path :=
  (fs.entries.filter (fun e =>
    listStarts base e.path
      && decide (base.length + 2 ≤ e.path.length)
      && strStarts ((e.path.drop base.length).headI) "mipmap-anydpi"
      && (lastName e.path = "ic_launcher.xml"))).map (fun e => e.path)

/-- Association-list lookup used for JSON objects, plist dicts and XML
attribute lists (first binding wins, as in the parsed documents). -/
def alookup [DecidableEq κ] (l : List (κ × β)) (k : κ) : Option β :=
  (l.find? (fun kv => kv.1 = k)).map (fun kv => kv.2)

/-- Python truthiness of a JSON value. -/
def jtruthy : JValue → Bool
  | JValue.null => false
  | JValue.bool b => b
  | JValue.num n => n ≠ 0
  | JValue.str s => s ≠ ""
  | JValue.arr l => !l.isEmpty
  | JValue.obj l => !l.isEmpty

/-- Python truthiness of an optional value (dict.get result): None is falsy. -/
def jtruthyOpt : Option JValue → Bool
  | none => false
  | some v => jtruthy v

/-- str() of a JSON value as interpolated into messages.  Only strings,
numbers, booleans and null are rendered exactly; the container renderings
are abbreviated (no message in any claim depends on them). -/
def jvalStr : JValue → String
  | JValue.null => "None"
  | JValue.bool b => if b then "True" else "False"
  | JValue.num n => toString n
  | JValue.str s => s
  | JValue.arr _ => "<json-array>"
  | JValue.obj _ => "<json-object>"

def jvalStrOpt : Option JValue → String
  | none => "None"
  | some v => jvalStr v

/-- d.get(k): returns None when the key is absent; raises AttributeError
(modelled as Except.error) when the receiver is not a dict. -/
def jget (v : JValue) (k : String) : Except Unit (Option JValue) :=
  match v with
  | JValue.obj l => Except.ok (alookup l k)
  | _ => Except.error ()

/-- d.get(k, default): like jget with a default for an absent key. -/
def jgetD (v : JValue) (k : String) (dflt : JValue) : Except Unit JValue :=
  match v with
  | JValue.obj l => Except.ok ((alookup l k).getD dflt)
  | _ => Except.error ()

/-- Python k in v: key membership for dicts, substring for strings,
element equality for lists; a TypeError (error) otherwise.  List elements
compare equal to the probe string only when they are that string. -/
def jin (k : String) (v : JValue) : Except Unit Bool :=
  match v with
  | JValue.obj l => Except.ok (l.any (fun kv => kv.1 = k))
  | JValue.str s => Except.ok (strContains s k)
  | JValue.arr l => Except.ok (l.any (fun x => match x with
      | JValue.str s => s = k
      | _ => false))
  | _ => Except.error ()

/-- Python iteration over a JSON value, as used by the icon descriptor scan:
lists yield elements, dicts yield their keys, strings yield one-character
strings; other values raise TypeError. -/
def jiter : JValue → Except Unit (List JValue)
  | JValue.arr l => Except.ok l
  | JValue.obj l => Except.ok (l.map (fun kv => JValue.str kv.1))
  | JValue.str s => Except.ok (s.data.map (fun c => JValue.str (String.singleton c)))
  | _ => Except.error ()

/-- Python truthiness of a plist value. -/
def pvTruthy : PVal → Bool
  | PVal.str s => s ≠ ""
  | PVal.int n => n ≠ 0
  | PVal.bool b => b
  | PVal.arr l => !l.isEmpty
  | PVal.dict l => !l.isEmpty

def pvTruthyOpt : Option PVal → Bool
  | none => false
  | some v => pvTruthy v

/-- str() of a plist value inside an f-string.  Containers abbreviated. -/
def pvalStr : PVal → String
  | PVal.str s => s
  | PVal.int n => toString n
  | PVal.bool b => if b then "True" else "False"
  | PVal.arr _ => "<plist-array>"
  | PVal.dict _ => "<plist-dict>"

def pvalStrOpt : Option PVal → String
  | none => "None"
  | some v => pvalStr v

/-- plist.get(k): None when absent; AttributeError when the document is not
a dict.  The error payload is the exception, whose Python message text is
abstracted away. -/
def pget (v : PVal) (k : String) : Except Unit (Option PVal) :=
  match v with
  | PVal.dict l => Except.ok (alookup l k)
  | _ => Except.error ()

/-- plist.get(k, default). -/
def pgetD (v : PVal) (k : String) (dflt : PVal) : Except Unit PVal :=
  match v with
  | PVal.dict l => Except.ok ((alookup l k).getD dflt)
  | _ => Except.error ()

/-- Python sub in v for a plist value: substring for strings, key
membership for dicts, element equality for lists, TypeError otherwise
(used for the build-variable test on the bundle identifier, line 142). -/
def pin (sub : String) (v : PVal) : Except Unit Bool :=
  match v with
  | PVal.str s => Except.ok (strContains s sub)
  | PVal.dict l => Except.ok (l.any (fun kv => kv.1 = sub))
  | PVal.arr l => Except.ok (l.any (fun x => match x with
      | PVal.str s => s = sub
      | _ => false))
  | _ => Except.error ()

/-- The whitespace class of the regular expressions and of str.strip, in its
ASCII core. -/
def isWs (c : Char) : Bool :=
  c = ' ' || c = '\t' || c = '\n' || c = '\r' || c = '\x0b' || c = '\x0c'

/-- str.strip(): drop whitespace from both ends. -/
def pystrip (s : String) : String :=
  String.mk (((s.data.dropWhile isWs).reverse.dropWhile isWs).reverse)

/-- Match a literal pattern at the head; return the rest on success. -/
def matchLit : List Char → List Char → Option (List Char)
  | [], cs => some cs
  | _ :: _, [] => none
  | l :: ls, c :: cs => if c = l then matchLit ls cs else none

/-- Case-insensitive literal match: the pattern is given in lowercase, the
subject character is lowered before comparison, as under the re.I flag. -/
def matchLitCI : List Char → List Char → Option (List Char)
  | [], cs => some cs
  | _ :: _, [] => none
  | l :: ls, c :: cs => if c.toLower = l then matchLitCI ls cs else none

/-- Numeric value of a nonempty digit-character group, as int() computes. -/
def digitsVal (ds : List Char) : Nat :=
  ds.foldl (fun a c => a * 10 + (c.toNat - 48)) 0

/-- The tail \s+(\d+) of the SDK patterns: one or more whitespace characters
followed by one or more digits; yields the numeric value of the digits. -/
def wsDigits (cs : List Char) : Option Nat :=
  match cs with
  | [] => none
  | c :: rest =>
    if isWs c then
      let ds := (rest.dropWhile isWs).takeWhile Char.isDigit
      if ds.isEmpty then none else some (digitsVal ds)
    else none

/-- One attempt of the pattern targetSdk(?:Version)?\s+(\d+) at a fixed
position: the optional group is tried greedily first, with backtracking to
the shorter reading when the tail fails (line 328). -/
def tryTargetSdkAt (cs : List Char) : Option Nat :=
  match matchLit "targetSdk".data cs with
  | none => none
  | some rest =>
    match (matchLit "Version".data rest).bind wsDigits with
    | some n => some n
    | none => wsDigits rest

/-- re.search: try the position-anchored matcher at every position from the
left; the first success wins. -/
def searchAux (f : List Char → Option β) : List Char → Option β
  | [] => f []
  | c :: cs => f (c :: cs) <|> searchAux f cs

/-- re.search of targetSdk(?:Version)?\s+(\d+) with the captured group
converted by int() (lines 328-332). -/
def searchTargetSdk (s : String) : Option Nat :=
  searchAux tryTargetSdkAt s.data

/-- The quote class of the versionName pattern: double or single quote. -/
def isQuote (c : Char) : Bool :=
  c = '"' || c = Char.ofNat 39

/-- One attempt of versionName\s+["...]([^"...]+)["...] at a position
(line 319; the bracket classes hold the two quote characters): whitespace,
an opening quote of either kind, a nonempty run of non-quote characters,
and a closing quote of either kind. -/
def tryVersionNameAt (cs : List Char) : Option String :=
  (matchLit "versionName".data cs).bind fun r =>
    match r with
    | c :: rest =>
      if isWs c then
        match rest.dropWhile isWs with
        | q :: r2 =>
          if isQuote q then
            let body := r2.takeWhile (fun b => !isQuote b)
            if body.isEmpty then none
            else if (r2.drop body.length).isEmpty then none
            else some (String.mk body)
          else none
        | [] => none
      else none
    | [] => none

/-- One attempt of versionCode\s+(\d+) at a position (line 320); the group
is interpolated as its raw digit text. -/
def tryVersionCodeAt (cs : List Char) : Option String :=
  (matchLit "versionCode".data cs).bind fun r =>
    match r with
    | c :: rest =>
      if isWs c then
        let ds := (rest.dropWhile isWs).takeWhile Char.isDigit
        if ds.isEmpty then none else some (String.mk ds)
      else none
    | [] => none

def searchVersionName (s : String) : Option String :=
  searchAux tryVersionNameAt s.data

def searchVersionCode (s : String) : Option String :=
  searchAux tryVersionCodeAt s.data

/-- One attempt of the multiline pattern ^version:\s*(.+)$ just after a line
start (line 413).  The whitespace class includes newlines; the group is the
greedy run of non-newline characters after the greedily shortened
whitespace.  When only whitespace follows to the end of the string the
engine backtracks until the group holds the last non-newline whitespace
character, if any. -/
def tryPubspecVersionAt (cs : List Char) : Option String :=
  (matchLit "version:".data cs).bind fun rest =>
    let w := rest.takeWhile isWs
    if w.length < rest.length then
      some (String.mk ((rest.drop w.length).takeWhile (fun c => c ≠ '\n')))
    else
      match rest.reverse.dropWhile (fun c => c = '\n') with
      | [] => none
      | c :: _ => some (String.mk [c])

/-- re.search with re.M over positions that start a line. -/
def searchLineStart (f : List Char → Option β) : Bool → List Char → Option β
  | _, [] => none
  | atStart, c :: cs =>
    (if atStart then f (c :: cs) else none) <|> searchLineStart f (c = '\n') cs

def searchPubspecVersion (s : String) : Option String :=
  searchLineStart tryPubspecVersionAt true s.data

/-- The optional-separator-then-key tail of api[_-]?key and secret[_-]?key:
the greedy separator reading is tried first, then the direct one. -/
def trySepKey (cs : List Char) : Option (List Char) :=
  (match cs with
   | c :: r2 => if c = '_' || c = '-' then matchLitCI "key".data r2 else none
   | [] => none) <|> matchLitCI "key".data cs

/-- The keyword alternation (api[_-]?key|secret[_-]?key|password) under
re.I (first pattern of the secret scans, lines 234 and 378). -/
def keyAlt (cs : List Char) : Option (List Char) :=
  ((matchLitCI "api".data cs).bind trySepKey)
  <|> ((matchLitCI "secret".data cs).bind trySepKey)
  <|> matchLitCI "password".data cs

/-- The tail \s*SEP\s*"[^"]at-least-8" of the first secret pattern, where
SEP is drawn from [:=] in the iOS scan and is = in the Android scan. -/
def secretTail (seps : List Char) (cs : List Char) : Bool :=
  match cs.dropWhile isWs with
  | c :: r =>
    seps.contains c &&
    (match r.dropWhile isWs with
     | q :: r2 =>
       q = '"' &&
       (let body := r2.takeWhile (fun b => b ≠ '"')
        decide (8 ≤ body.length) && !(r2.drop body.length).isEmpty)
     | [] => false)
  | [] => false

def tryKeySecretAt (seps : List Char) (cs : List Char) : Bool :=
  match keyAlt cs with
  | some r => secretTail seps r
  | none => false

/-- Boolean re.search: try the anchored matcher at every position. -/
def searchBool (f : List Char → Bool) : List Char → Bool
  | [] => f []
  | c :: cs => f (c :: cs) || searchBool f cs

def matchKeySecret (seps : List Char) (s : String) : Bool :=
  searchBool (tryKeySecretAt seps) s.data

def isAlnumAscii (c : Char) : Bool :=
  c.isAlpha || c.isDigit

/-- One attempt of sk[-_](?:live|test)_[a-zA-Z0-9]at-least-20 at a
position (second secret pattern, lines 235 and 379). -/
def tryStripeAt (cs : List Char) : Bool :=
  match matchLit "sk".data cs with
  | some (c :: r) =>
    (c = '-' || c = '_') &&
    (match matchLit "live".data r <|> matchLit "test".data r with
     | some (u :: r2) => u = '_' && decide (20 ≤ (r2.takeWhile isAlnumAscii).length)
     | _ => false)
  | _ => false

def isGoogleKeyChar (c : Char) : Bool :=
  isAlnumAscii c || c = '-' || c = '_'

/-- One attempt of AIza followed by exactly 35 key characters (third secret
pattern, lines 236 and 380). -/
def tryGoogleAt (cs : List Char) : Bool :=
  match matchLit "AIza".data cs with
  | some r => decide (35 ≤ (r.takeWhile isGoogleKeyChar).length)
  | none => false

def matchStripe (s : String) : Bool :=
  searchBool tryStripeAt s.data

def matchGoogle (s : String) : Bool :=
  searchBool tryGoogleAt s.data

/-- Inner pattern loop of the secret scans (lines 241-244 and 385-388): the
first matching pattern in the fixed order yields the message, and the loop
breaks, so later patterns are not consulted for the same file. -/
def firstSecret (seps : List Char) (content : String) : Option String :=
  if matchKeySecret seps content then some "Possible hardcoded API key/secret"
  else if matchStripe content then some "Possible Stripe secret key"
  else if matchGoogle content then some "Possible Google API key"
  else none

/-- Conventional locations of the iOS manifest (lines 70-73). -/
def plistCandidates : List Path :=
  [["ios", "Runner", "Info.plist"], ["Info.plist"]]

/-- The exclusion filter of find_info_plist (line 83): keep a match whose
full path string contains none of the three markers as a substring. -/
def plistKeep (fs : FS) (p : Path) : Bool :=
  !strContains (fullPath fs p) "Pods"
    && !strContains (fullPath fs p) "build"
    && !strContains (fullPath fs p) "DerivedData"

/-- find_info_plist (lines 68-85): first existing conventional path, else
the first recursive match surviving the exclusion filter, else the first
raw recursive match, else none. -/
def find_info_plist (fs : FS) : Option Path :=
  match plistCandidates.find? (fun p => pathExists fs p) with
  | some p => some p
  | none =>
    let plists := globName fs "Info.plist"
    match plists.find? (fun p => plistKeep fs p) with
    | some p => some p
    | none => plists.head?

/-- Conventional locations of the Android manifest (lines 90-93). -/
def manifestCandidates : List Path :=
  [["android", "app", "src", "main", "AndroidManifest.xml"],
   ["app", "src", "main", "AndroidManifest.xml"]]

/-- Component suffix of the recursive manifest pattern (line 97). -/
def manifestSuffix : Path :=
  ["src", "main", "AndroidManifest.xml"]

/-- The exclusion filter of find_android_manifest (line 99). -/
def manifestKeep (fs : FS) (p : Path) : Bool :=
  !strContains (fullPath fs p) "build"

/-- find_android_manifest (lines 88-101). -/
def find_android_manifest (fs : FS) : Option Path :=
  match manifestCandidates.find? (fun p => pathExists fs p) with
  | some p => some p
  | none =>
    let manifests := globEndsSeq fs manifestSuffix
    match manifests.find? (fun p => manifestKeep fs p) with
    | some p => some p
    | none => manifests.head?

/-- Conventional locations of the app-level build descriptor (lines
106-111). -/
def gradleCandidates : List Path :=
  [["android", "app", "build.gradle"],
   ["android", "app", "build.gradle.kts"],
   ["app", "build.gradle"],
   ["app", "build.gradle.kts"]]

/-- find_build_gradle (lines 104-115): only the conventional candidates are
consulted; there is no recursive search tier. -/
def find_build_gradle (fs : FS) : Option Path :=
  gradleCandidates.find? (fun p => pathExists fs p)

/-- The two-tier locate policy in the words of the specification (section
4.2): try the ordered conventional paths; if none exist take the recursive
search results, drop excluded matches, return the first survivor, and fall
back to the first raw match when the filter removed everything.  Stated
over abstract candidate, search-result and keep parameters, to be compared
with the locators translated from the code. -/
def specLocate (exists_ : Path → Bool) (candidates : List Path)
    (raw : List Path) (keep : Path → Bool) : Option Path :=
  match candidates.find? exists_ with
  | some p => some p
  | none =>
    match (raw.filter keep).head? with
    | some p => some p
    | none => raw.head?

/-- Bundle-identifier checks (lines 140-147).  The containment test on a
truthy non-string identifier raises, which the enclosing handler turns into
the could-not-parse warning. -/
def bundleFindings (pv : PVal) : Except Unit (List Finding) := do
  let bid ← pget pv "CFBundleIdentifier"
  match bid with
  | some v =>
    if pvTruthy v then do
      let b ← pin "$(" v
      if b then
        pure [okF "ios" "config" ("Bundle identifier uses build variable: " ++ pvalStr v)]
      else
        pure [okF "ios" "config" ("Bundle identifier: " ++ pvalStr v)]
    else
      pure [errF "ios" "config" "CFBundleIdentifier missing from Info.plist"]
  | none => pure [errF "ios" "config" "CFBundleIdentifier missing from Info.plist"]

/-- Version checks (lines 150-157). -/
def versionFindingsIos (pv : PVal) : Except Unit (List Finding) := do
  let version ← pget pv "CFBundleShortVersionString"
  let build ← pget pv "CFBundleVersion"
  pure ((if pvTruthyOpt version then
            [okF "ios" "version"
              ("Version: " ++ pvalStrOpt version ++ " (build " ++ pvalStrOpt build ++ ")")]
          else [errF "ios" "version" "CFBundleShortVersionString missing"])
        ++ (if !pvTruthyOpt build then
            [errF "ios" "version" "CFBundleVersion (build number) missing"]
          else []))

/-- The fixed catalog of permission usage-description keys (lines 160-176),
in source order. -/
def permissionKeys : List (String × String) :=
  [("NSCameraUsageDescription", "Camera"),
   ("NSPhotoLibraryUsageDescription", "Photo Library"),
   ("NSLocationWhenInUseUsageDescription", "Location (When In Use)"),
   ("NSLocationAlwaysAndWhenInUseUsageDescription", "Location (Always)"),
   ("NSMicrophoneUsageDescription", "Microphone"),
   ("NSContactsUsageDescription", "Contacts"),
   ("NSCalendarsUsageDescription", "Calendars"),
   ("NSBluetoothAlwaysUsageDescription", "Bluetooth"),
   ("NSFaceIDUsageDescription", "Face ID"),
   ("NSMotionUsageDescription", "Motion"),
   ("NSLocalNetworkUsageDescription", "Local Network"),
   ("NSSpeechRecognitionUsageDescription", "Speech Recognition"),
   ("NSHealthShareUsageDescription", "Health (Read)"),
   ("NSHealthUpdateUsageDescription", "Health (Write)"),
   ("NSUserTrackingUsageDescription", "Tracking (ATT)")]

/-- Message of the short-description warning (line 182). -/
def shortPermMsg (name val : String) : String :=
  name ++ " permission description is very short: \"" ++ val
    ++ "\". Apple may reject vague descriptions."

/-- One iteration of the permission loop (lines 178-184) over accumulator
(findings so far, names found so far, raised exception).  A falsy value is
skipped entirely; a truthy string shorter than 10 characters after
stripping warns; a longer one accumulates its display name; a truthy
non-string raises at val.strip(); once an exception is recorded the loop
has stopped, so the step passes the accumulator through. -/
def permStep (pv : PVal) (acc : List Finding × List String × Option Unit)
    (kn : String × String) : List Finding × List String × Option Unit :=
  match acc.2.2 with
  | some _ => acc
  | none =>
    match pget pv kn.1 with
    | Except.error _ => (acc.1, acc.2.1, some ())
    | Except.ok none => acc
    | Except.ok (some v) =>
      if pvTruthy v then
        match v with
        | PVal.str s =>
          if (pystrip s).length < 10 then
            (acc.1 ++ [warnF "ios" "privacy" (shortPermMsg kn.2 s)], acc.2.1, none)
          else
            (acc.1, acc.2.1 ++ [kn.2], none)
        | _ => (acc.1, acc.2.1, some ())
      else acc

/-- The permission section (lines 177-186): the loop over the catalog, then
the found-permissions pass finding when any name accumulated and no
exception interrupted the loop. -/
def permFindings (pv : PVal) : List Finding × Option Unit :=
  let r := permissionKeys.foldl (permStep pv) ([], [], none)
  match r.2.2 with
  | some _ => (r.1, some ())
  | none =>
    (r.1 ++ (if r.2.1.isEmpty then []
      else [okF "ios" "privacy"
        ("Permission descriptions found for: " ++ joinSep ", " r.2.1)]), none)

/-- App-transport-security check (lines 189-191). -/
def atsFindings (pv : PVal) : Except Unit (List Finding) := do
  let ats ← pgetD pv "NSAppTransportSecurity" (PVal.dict [])
  let v ← pget ats "NSAllowsArbitraryLoads"
  pure (if pvTruthyOpt v then
      [warnF "ios" "security"
        "NSAllowsArbitraryLoads is enabled. Apple will require justification during review."]
    else [])

/-- The body of the try block over the parsed plist (lines 136-191),
returning the findings appended before any exception together with the
exception marker the handler at line 193 receives. -/
def plistChecks (pv : PVal) : List Finding × Option Unit :=
  match bundleFindings pv with
  | Except.error _ => ([], some ())
  | Except.ok l1 =>
    match versionFindingsIos pv with
    | Except.error _ => (l1, some ())
    | Except.ok l2 =>
      match permFindings pv with
      | (l3, some _) => (l1 ++ l2 ++ l3, some ())
      | (l3, none) =>
        match atsFindings pv with
        | Except.error _ => (l1 ++ l2 ++ l3, some ())
        | Except.ok l4 => (l1 ++ l2 ++ l3 ++ l4, none)

/-- The warning the except-Exception handler emits (line 194); the
interpolated exception text is abstracted. -/
def couldNotParsePlist : Finding :=
  warnF "ios" "config" "Could not parse Info.plist: <exception>"

/-- The Info.plist section of check_ios (lines 131-196).  Every failure of
the open, the parse and the field checks is caught by the handler at line
193, so the section is total. -/
def plistSection (fs : FS) : List Finding :=
  match find_info_plist fs with
  | none => [errF "ios" "config" "Info.plist not found"]
  | some p =>
    okF "ios" "config" ("Info.plist found at " ++ joinPath p) ::
    (match readText fs p with
     | none => [couldNotParsePlist]
     | some c =>
       match fs.pparse c with
       | none => [couldNotParsePlist]
       | some pv =>
         match plistChecks pv with
         | (l, some _) => l ++ [couldNotParsePlist]
         | (l, none) => l)

/-- Privacy-manifest section (lines 198-204). -/
def privacySection (fs : FS) : List Finding :=
  match (globName fs "PrivacyInfo.xcprivacy").filter (fun p =>
      !strContains (fullPath fs p) "Pods" && !strContains (fullPath fs p) "build") with
  | p :: _ => [okF "ios" "privacy" ("Privacy manifest found: " ++ joinPath p)]
  | [] => [errF "ios" "privacy" "PrivacyInfo.xcprivacy not found. Required since iOS 17."]

/-- Python img.get(k) == "some string": only a string value compares
equal. -/
def jIsStr (v : Option JValue) (s : String) : Bool :=
  match v with
  | some (JValue.str t) => t = s
  | _ => false

/-- The lazily evaluated any(...) generator over the icon images (lines
215-218): elements are inspected left to right and the scan stops at the
first success, so a malformed element after it is never touched; a
non-dict element raises at its first attribute access. -/
def anyIcon : List JValue → Except Unit Bool
  | [] => Except.ok false
  | img :: rest => do
    let sz ← jget img "size"
    if jIsStr sz "1024x1024" then do
      let fn ← jget img "filename"
      if jtruthyOpt fn then Except.ok true else anyIcon rest
    else anyIcon rest

/-- contents.get("images", []) and the any(...) scan (lines 214-218): the
attribute access raises on a non-dict document, iteration raises on
non-iterable values; these escape check_ios, as the handler at line 223
only catches decode and OS errors. -/
def has1024 (jv : JValue) : Except Unit Bool := do
  let images ← jgetD jv "images" (JValue.arr [])
  let items ← jiter images
  anyIcon items

/-- App-icon section (lines 206-228). -/
def iconSection (fs : FS) : Except Unit (List Finding) :=
  match (globName fs "AppIcon.appiconset").filter (fun p =>
      !strContains (fullPath fs p) "Pods" && !strContains (fullPath fs p) "build") with
  | [] => Except.ok [errF "ios" "assets" "AppIcon.appiconset not found"]
  | p :: _ =>
    if pathExists fs (p ++ ["Contents.json"]) then
      match readText fs (p ++ ["Contents.json"]) with
      | none => Except.ok [warnF "ios" "assets" "Could not parse AppIcon.appiconset/Contents.json"]
      | some c =>
        match fs.jparse c with
        | none => Except.ok [warnF "ios" "assets" "Could not parse AppIcon.appiconset/Contents.json"]
        | some jv =>
          match has1024 jv with
          | Except.error e => Except.error e
          | Except.ok true => Except.ok [okF "ios" "assets" "1024x1024 App Store icon found"]
          | Except.ok false =>
            Except.ok [errF "ios" "assets" "Missing 1024x1024 App Store icon in AppIcon.appiconset"]
    else Except.ok [warnF "ios" "assets" "AppIcon.appiconset found but no Contents.json"]

/-- The per-file body of a secret scan (lines 239-246 and 383-390): an
unreadable file is skipped (except OSError: pass); otherwise the first
matching pattern yields one warning naming the file. -/
def perFileSecret (platform : String) (seps : List Char) (fs : FS) (p : Path) : List Finding :=
  match readText fs p with
  | none => []
  | some c =>
    match firstSecret seps c with
    | some desc => [warnF platform "security" (desc ++ " found in " ++ joinPath p)]
    | none => []

/-- A secret scan over a candidate file list (lines 238 and 382): only the
first 200 files are examined and each contributes at most one warning. -/
def secretScan (platform : String) (seps : List Char) (fs : FS) (files : List Path) : List Finding :=
  (files.take 200).flatMap (perFileSecret platform seps fs)

/-- Swift source candidates of the iOS secret scan (lines 231-232). -/
def secretFilesIos (fs : FS) : List Path :=
  (globExtension fs ".swift").filter (fun p =>
    !strContains (fullPath fs p) "Pods" && !strContains (fullPath fs p) "build")

/-- check_ios (lines 118-248).  The framework argument is accepted and,
as in the source, never used.  The only uncaught failure mode is a
malformed icon descriptor document (see iconSection). -/
def check_ios (fs : FS) (framework : String) : Except Unit (List Finding) := do
  let l1 := plistSection fs
  let l2 := privacySection fs
  let l3 ← iconSection fs
  let l4 := secretScan "ios" [':', '='] fs (secretFilesIos fs)
  pure (l1 ++ l2 ++ l3 ++ l4)

/-- The Android XML attribute namespace (line 271). -/
def androidNs : String :=
  "http://schemas.android.com/apk/res/android"

/-- The fully qualified name attribute key the manifest scan looks up
(line 284). -/
def nsNameKey : String :=
  "\x7b" ++ androidNs ++ "\x7dname"

/-- The fixed dangerous-permission list (lines 289-297). -/
def dangerousPerms : List String :=
  ["ACCESS_FINE_LOCATION", "ACCESS_COARSE_LOCATION", "ACCESS_BACKGROUND_LOCATION",
   "CAMERA", "RECORD_AUDIO", "READ_CONTACTS", "WRITE_CONTACTS",
   "READ_CALENDAR", "WRITE_CALENDAR", "READ_PHONE_STATE",
   "CALL_PHONE", "READ_CALL_LOG", "WRITE_CALL_LOG",
   "BODY_SENSORS", "SEND_SMS", "READ_SMS",
   "READ_EXTERNAL_STORAGE", "WRITE_EXTERNAL_STORAGE",
   "QUERY_ALL_PACKAGES"]

/-- perm_name.split(".")[-1] (line 285). -/
def lastDotComponent (s : String) : String :=
  String.mk ((s.data.reverse.takeWhile (fun c => c ≠ '.')).reverse)

/-- Checks over the parsed manifest element (lines 270-304); all total. -/
def manifestChecks (x : XNode) : List Finding :=
  let noPkg := warnF "android" "config" "Package name not in manifest (may be set in build.gradle)"
  let packageF := match alookup x.attrs "package" with
    | some pkg =>
      if pkg ≠ "" then [okF "android" "config" ("Package name: " ++ pkg)] else [noPkg]
    | none => [noPkg]
  let permissions := (x.children.filter (fun c => c.tag = "uses-permission")).map
    (fun c => lastDotComponent ((alookup c.attrs nsNameKey).getD ""))
  let permsF := if permissions.isEmpty then []
    else [okF "android" "privacy" ("Declared permissions: " ++ joinSep ", " permissions)]
  let usedDangerous := permissions.filter (fun p => dangerousPerms.contains p)
  let dangF := if usedDangerous.isEmpty then []
    else [warnF "android" "privacy" ("Dangerous permissions detected: "
      ++ joinSep ", " usedDangerous
      ++ ". Ensure runtime permission requests and justification.")]
  let inetF := if permissions.contains "INTERNET"
    then [okF "android" "config" "INTERNET permission declared"] else []
  packageF ++ permsF ++ dangF ++ inetF

/-- Manifest section of check_android (lines 264-309).  ET.parse both opens
and parses the file; the handler at line 306 catches only the parse
failure, so an unreadable manifest file raises out of the check. -/
def manifestSection (fs : FS) : Except Unit (List Finding) :=
  match find_android_manifest fs with
  | none => Except.ok [errF "android" "config" "AndroidManifest.xml not found"]
  | some p =>
    match readText fs p with
    | none => Except.error ()
    | some c =>
      match fs.xparse c with
      | none =>
        Except.ok [okF "android" "config" ("AndroidManifest.xml found at " ++ joinPath p),
          warnF "android" "config" "Could not parse AndroidManifest.xml: <exception>"]
      | some x =>
        Except.ok (okF "android" "config" ("AndroidManifest.xml found at " ++ joinPath p)
          :: manifestChecks x)

/-- The target-SDK sub-check of the gradle section (lines 328-336): a pass
finding at 34 or above, a warning below 34, and no finding at all when the
pattern finds nothing. -/
def sdkFindings (content : String) : List Finding :=
  match searchTargetSdk content with
  | some n =>
    if n < 34 then
      [warnF "android" "config"
        ("targetSdkVersion is " ++ toString n ++ ". Google Play requires 34+ for new apps.")]
    else
      [okF "android" "config" ("targetSdkVersion: " ++ toString n)]
  | none => []

/-- The checks over the build.gradle text (lines 316-348).  The minSdk and
compileSdk extractions of lines 327 and 329 are dead values in the source
and are omitted. -/
def gradleContentFindings (content : String) : List Finding :=
  (match searchVersionName content with
   | some v => [okF "android" "version" ("versionName: " ++ v)]
   | none => [])
  ++ (match searchVersionCode content with
      | some v => [okF "android" "version" ("versionCode: " ++ v)]
      | none => [])
  ++ sdkFindings content
  ++ (if strContains content "signingConfigs" && strContains content "release"
      then [okF "android" "build" "Release signing config found"]
      else [warnF "android" "build"
        "No release signing config found in build.gradle. Required for Play Store submission."])
  ++ (if strContains content "minifyEnabled true" || strContains content "isMinifyEnabled = true"
      then [okF "android" "build" "Code minification (R8/ProGuard) enabled"]
      else [warnF "android" "build"
        "minifyEnabled is not set to true for release. Recommended for smaller APK and code obfuscation."])

/-- Gradle section of check_android (lines 311-353); the read failure is
caught by the except-OSError handler at line 350. -/
def gradleSection (fs : FS) : List Finding :=
  match find_build_gradle fs with
  | none => [errF "android" "config" "App-level build.gradle not found"]
  | some p =>
    okF "android" "config" ("build.gradle found at " ++ joinPath p) ::
    (match readText fs p with
     | none => [warnF "android" "config" "Could not read build.gradle: <exception>"]
     | some content => gradleContentFindings content)

/-- Icon-resource section of check_android (lines 355-372). -/
def resSection (fs : FS) : List Finding :=
  let base : Path := if pathExists fs ["android"] then ["android"] else []
  let resDir := base ++ ["app", "src", "main", "res"]
  if pathExists fs resDir then
    (let mip := globChildStarts fs resDir "mipmap-"
     (if mip.isEmpty then [warnF "android" "assets" "No mipmap directories found for app icons"]
      else [okF "android" "assets"
        ("Mipmap directories found: " ++ toString mip.length ++ " densities")])
     ++ (if (globAdaptive fs resDir).isEmpty then
          [warnF "android" "assets"
            "No adaptive icon found (ic_launcher.xml in mipmap-anydpi). Recommended for Android 8+."]
        else [okF "android" "assets" "Adaptive icon configured"]))
  else [warnF "android" "assets" "Resource directory not found at expected path"]

/-- Kotlin and Java source candidates of the Android secret scan (lines
375-376). -/
def secretFilesAndroid (fs : FS) : List Path :=
  ((globExtension fs ".kt") ++ (globExtension fs ".java")).filter (fun p =>
    !strContains (fullPath fs p) "build" && !strContains (fullPath fs p) ".gradle")

/-- check_android (lines 251-392).  The framework argument is accepted and,
as in the source, never used.  The only uncaught failure mode is an
unreadable located manifest (see manifestSection). -/
def check_android (fs : FS) (framework : String) : Except Unit (List Finding) := do
  let l1 ← manifestSection fs
  let l2 := gradleSection fs
  let l3 := resSection fs
  let l4 := secretScan "android" ['='] fs (secretFilesAndroid fs)
  pure (l1 ++ l2 ++ l3 ++ l4)

/-- Checks over the pubspec text (lines 410-423). -/
def flutterPubspecFindings (content : String) : List Finding :=
  (match searchPubspecVersion content with
   | some v => [okF "flutter" "version" ("Version in pubspec.yaml: " ++ pystrip v)]
   | none => [errF "flutter" "version" "No version found in pubspec.yaml"])
  ++ (if strContains content "sdk:" then [okF "flutter" "config" "Dart SDK constraint defined"]
      else [warnF "flutter" "config" "No Dart SDK constraint in pubspec.yaml"])

/-- The Podfile.lock check shared verbatim by the Flutter and React Native
rule sets (lines 426-429 and 487-490), tagged with the caller's platform. -/
def podfileFindings (fs : FS) (platform : String) : List Finding :=
  if pathExists fs ["ios", "Podfile.lock"] then
    [okF platform "config" "ios/Podfile.lock committed"]
  else if pathExists fs ["ios"] then
    [warnF platform "config" "ios/Podfile.lock not found. Should be committed to version control."]
  else []

/-- check_flutter (lines 395-431).  The pubspec read at line 410 has no
exception handler: an existing but unreadable pubspec.yaml raises out of
the check. -/
def check_flutter (fs : FS) : Except Unit (List Finding) := do
  let l1 ← (if pathExists fs ["pubspec.yaml"] then
      match readText fs ["pubspec.yaml"] with
      | none => Except.error ()
      | some content => Except.ok (flutterPubspecFindings content)
    else Except.ok [])
  pure (l1 ++ podfileFindings fs "flutter")

/-- The debug-only package names (line 473). -/
def debugPkgs : List String :=
  ["react-native-debugger", "reactotron-react-native", "expo-dev-client"]

/-- The membership filter [p for p in debug_pkgs if p in deps] (line 474):
each probe can raise when deps is not a container. -/
def jinAll (keys : List String) (v : JValue) : Except Unit (List String) :=
  match keys with
  | [] => Except.ok []
  | k :: ks => do
    let b ← jin k v
    let rest ← jinAll ks v
    pure (if b then k :: rest else rest)

/-- The body of the try block over the parsed package.json (lines 450-481).
Attribute access on unexpectedly shaped documents raises AttributeError,
which the handler at line 483 does not catch. -/
def rnPkgFindings (fs : FS) (pkg : JValue) : Except Unit (List Finding) := do
  let deps ← jgetD pkg "dependencies" (JValue.obj [])
  let _devDeps ← jgetD pkg "devDependencies" (JValue.obj [])
  let rnVersion ← jgetD deps "react-native" (JValue.str "")
  let l1 := if jtruthy rnVersion then
      [okF "react-native" "config" ("React Native version: " ++ jvalStr rnVersion)]
    else []
  let hasExpo ← jin "expo" deps
  let l2 ← if hasExpo then do
      let expoV ← jgetD deps "expo" (JValue.str "detected")
      let cfg := pathExists fs ["app.json"] || pathExists fs ["app.config.js"]
        || pathExists fs ["app.config.ts"]
      pure ([okF "react-native" "config" ("Expo SDK: " ++ jvalStr expoV)]
        ++ (if cfg then [okF "react-native" "config" "App config file found"]
            else [errF "react-native" "config" "No app.json or app.config.js found for Expo project"]))
    else pure []
  let foundDebug ← jinAll debugPkgs deps
  let l3 := if foundDebug.isEmpty then []
    else [warnF "react-native" "build" ("Debug packages in production dependencies: "
      ++ joinSep ", " foundDebug ++ ". Move to devDependencies or remove.")]
  let version ← jget pkg "version"
  let l4 := if jtruthyOpt version then
      [okF "react-native" "version" ("Version in package.json: " ++ jvalStrOpt version)]
    else []
  pure (l1 ++ l2 ++ l3 ++ l4)

/-- check_react_native (lines 434-492).  Read and decode failures of
package.json are caught (line 483) and degrade to a warning finding. -/
def check_react_native (fs : FS) : Except Unit (List Finding) := do
  let l1 ← (if pathExists fs ["package.json"] then
      match readText fs ["package.json"] with
      | none => Except.ok [warnF "react-native" "config" "Could not parse package.json"]
      | some c =>
        match fs.jparse c with
        | none => Except.ok [warnF "react-native" "config" "Could not parse package.json"]
        | some pkg => rnPkgFindings fs pkg
    else Except.ok [])
  pure (l1 ++ podfileFindings fs "react-native")

/-- Environment-file check of check_common (lines 506-509). -/
def envFindings (fs : FS) : List Finding :=
  let envFiles := (globTopStarts fs ".env").filter (fun p =>
    lastName p ≠ ".env.example" && lastName p ≠ ".env.template")
  if envFiles.isEmpty then []
  else [warnF "common" "security" ("Environment files found: "
    ++ joinSep ", " (envFiles.map lastName)
    ++ ". Ensure these are in .gitignore and not bundled in release builds.")]

/-- Gitignore check (lines 512-520).  The read at line 514 has no handler:
an existing but unreadable .gitignore raises out of the check. -/
def gitignoreFindings (fs : FS) : Except Unit (List Finding) :=
  if pathExists fs [".gitignore"] then
    match readText fs [".gitignore"] with
    | none => Except.error ()
    | some c =>
      if strContains c ".env" then Except.ok [okF "common" "security" ".env is in .gitignore"]
      else Except.ok [warnF "common" "security" ".env is NOT in .gitignore. Secrets may be committed."]
  else Except.ok [warnF "common" "security" "No .gitignore found"]

/-- README check (lines 524-528).  errors=ignore suppresses decoding
problems only; an OS-level read failure still raises, unhandled. -/
def readmeFindings (fs : FS) : Except Unit (List Finding) :=
  if pathExists fs ["README.md"] then
    match readText fs ["README.md"] with
    | none => Except.error ()
    | some c =>
      if strContains (lowerStr c) "privacy" then
        Except.ok [okF "common" "legal" "Privacy policy referenced in README"]
      else Except.ok []
  else Except.ok []

/-- check_common (lines 495-530). -/
def check_common (fs : FS) : Except Unit (List Finding) := do
  let l1 := envFindings fs
  let l2 ← gitignoreFindings fs
  let l3 ← readmeFindings fs
  pure (l1 ++ l2 ++ l3)

/-- Platforms of a detected Flutter or React Native project (lines 33-36
and 47-50). -/
def fwPlatforms (fs : FS) : List String :=
  (if pathExists fs ["ios"] then ["ios"] else [])
  ++ (if pathExists fs ["android"] then ["android"] else [])

/-- Platforms of the native fallback (lines 57-63). -/
def nativePlatforms (fs : FS) : List String :=
  (if !((globTopEnds fs ".xcodeproj" ++ globTopEnds fs ".xcworkspace").isEmpty)
      || pathExists fs ["ios"] then ["ios"] else [])
  ++ (if pathExists fs ["app", "build.gradle"] || pathExists fs ["app", "build.gradle.kts"] then
        ["android"]
      else if pathExists fs ["android", "app", "build.gradle"]
          || pathExists fs ["android", "app", "build.gradle.kts"] then
        ["android"]
      else [])

/-- The native fall-through result of detect_project_type. -/
def nativeSig (fs : FS) : Sig :=
  ⟨"native", nativePlatforms fs⟩

/-- Python dict merge by unpacking both dicts (line 44): keys of the first,
with values overridden by the second, then the new keys of the second. -/
def mergeDicts (a b : List (String × JValue)) : List (String × JValue) :=
  a.map (fun kv => (kv.1, (alookup b kv.1).getD kv.2))
    ++ b.filter (fun kv => !(a.any (fun kv2 => kv2.1 = kv.1)))

/-- deps of line 44: the merged regular and development dependencies.  Each
get raises on a non-dict document; the double-star unpacking raises when a
retrieved value is not a mapping. -/
def combinedDeps (pkg : JValue) : Except Unit (List (String × JValue)) := do
  let d ← jgetD pkg "dependencies" (JValue.obj [])
  let dd ← jgetD pkg "devDependencies" (JValue.obj [])
  match d, dd with
  | JValue.obj a, JValue.obj b => Except.ok (mergeDicts a b)
  | _, _ => Except.error ()

def hasDep (deps : List (String × JValue)) (k : String) : Bool :=
  deps.any (fun kv => kv.1 = k)

/-- detect_project_type (lines 23-65).  The Flutter signature is terminal;
the React Native branch treats a read or decode failure of package.json as
no match (lines 52-53), but an unexpectedly shaped document raises. -/
def detect_project_type (fs : FS) : Except Unit Sig :=
  if pathExists fs ["pubspec.yaml"] && pathExists fs ["lib"] then
    Except.ok ⟨"flutter", fwPlatforms fs⟩
  else if pathExists fs ["package.json"] then
    match readText fs ["package.json"] with
    | none => Except.ok (nativeSig fs)
    | some c =>
      match fs.jparse c with
      | none => Except.ok (nativeSig fs)
      | some pkg => do
        let deps ← combinedDeps pkg
        if hasDep deps "react-native" || hasDep deps "expo" then
          Except.ok ⟨"react-native", fwPlatforms fs⟩
        else Except.ok (nativeSig fs)
  else Except.ok (nativeSig fs)

/-- The framework-specific dispatch of main (lines 555-558). -/
def frameworkCheck (fs : FS) (f : String) : Except Unit (List Finding) :=
  if f = "flutter" then check_flutter fs
  else if f = "react-native" then check_react_native fs
  else Except.ok []

/-- The iOS platform dispatch of main (lines 561-562). -/
def platformIosCheck (fs : FS) (sig : Sig) : Except Unit (List Finding) :=
  if sig.platforms.contains "ios" then check_ios fs sig.framework else Except.ok []

/-- The Android platform dispatch of main (lines 563-564). -/
def platformAndroidCheck (fs : FS) (sig : Sig) : Except Unit (List Finding) :=
  if sig.platforms.contains "android" then check_android fs sig.framework else Except.ok []

/-- The aggregation of main (lines 546-564): the detected signature and the
concatenation of the applicable finding lists in the fixed order common,
framework-specific, ios, android. -/
def scanIssues (fs : FS) : Except Unit (Sig × List Finding) := do
  let project ← detect_project_type fs
  let l1 ← check_common fs
  let l2 ← frameworkCheck fs project.framework
  let l3 ← platformIosCheck fs project
  let l4 ← platformAndroidCheck fs project
  pure (project, l1 ++ l2 ++ l3 ++ l4)

/-- Number of findings of one severity (lines 567-569). -/
def countSev (s : Severity) (l : List Finding) : Nat :=
  (l.filter (fun f => f.severity = s)).length

/-- The summary of the report (lines 574-578). -/
def mkSummary (l : List Finding) : Summary :=
  ⟨countSev Severity.error l, countSev Severity.warning l, countSev Severity.pass l⟩

/-- The report dict (lines 571-580). -/
def mkReport (fs : FS) (sig : Sig) (issues : List Finding) : Report :=
  ⟨fs.rootStr, sig, mkSummary issues, issues⟩

/-- The report-producing part of main (lines 533-584), without the CLI and
stream glue the spec scopes out. -/
def scan (fs : FS) : Except Unit Report :=
  (scanIssues fs).map (fun pr => mkReport fs pr.1 pr.2)

/-! Concrete project trees used to instantiate the theorems below. -/

/-- A parser oracle that fails on every input. -/
def noParse {α} : String → Option α := fun _ => none

/-- An empty project root. -/
def fsEmpty : FS :=
  ⟨"/empty", [], noParse, noParse, noParse⟩

/-- A Flutter-shaped project: a readable pubspec with a version line and an
SDK constraint, a lib directory and an ios directory. -/
def fsFlutter : FS :=
  ⟨"/flutter-app",
   [⟨["pubspec.yaml"], EntryKind.file, some "version: 1.0.0+1\nenvironment:\n  sdk: 3.0.0"⟩,
    ⟨["lib"], EntryKind.dir, none⟩,
    ⟨["ios"], EntryKind.dir, none⟩],
   noParse, noParse, noParse⟩

/-- A project whose pubspec.yaml exists but cannot be read. -/
def fsUnreadablePubspec : FS :=
  ⟨"/p", [⟨["pubspec.yaml"], EntryKind.file, none⟩, ⟨["lib"], EntryKind.dir, none⟩],
   noParse, noParse, noParse⟩

/-- A readable project exercising the guarded read paths: every existing
file is readable and no document parses. -/
def fsReadable : FS :=
  ⟨"/r",
   [⟨[".gitignore"], EntryKind.file, some ".env\nbuild/\n"⟩,
    ⟨["README.md"], EntryKind.file, some "My app. Privacy policy: see site."⟩,
    ⟨["pubspec.yaml"], EntryKind.file, some "version: 0.1.0"⟩],
   noParse, noParse, noParse⟩

/-- A root whose package.json parses to a JSON array: valid JSON of an
unexpected shape. -/
def fsPkgArray : FS :=
  ⟨"/a", [⟨["package.json"], EntryKind.file, some "ARR"⟩],
   (fun s => if s = "ARR" then some (JValue.arr []) else none), noParse, noParse⟩

/-- A root whose package.json exists but does not decode as JSON. -/
def fsPkgBad : FS :=
  ⟨"/b", [⟨["package.json"], EntryKind.file, some "BAD"⟩],
   noParse, noParse, noParse⟩

/-- A root whose only build.gradle sits at a non-conventional nested
location. -/
def fsNestedGradle : FS :=
  ⟨"/g", [⟨["modules", "app", "build.gradle"], EntryKind.file, some "targetSdkVersion 34"⟩],
   noParse, noParse, noParse⟩

/-- A root that is simultaneously Flutter-shaped and React-Native-shaped:
the package.json parses to a dependency object containing react-native. -/
def fsBoth : FS :=
  ⟨"/both",
   [⟨["pubspec.yaml"], EntryKind.file, some "version: 1.0.0"⟩,
    ⟨["lib"], EntryKind.dir, none⟩,
    ⟨["package.json"], EntryKind.file, some "PKG"⟩,
    ⟨["android"], EntryKind.dir, none⟩],
   (fun s => if s = "PKG" then
      some (JValue.obj [("dependencies", JValue.obj [("react-native", JValue.str "0.73.0")])])
    else none),
   noParse, noParse⟩

/-- An iOS project whose Info.plist parses to a dict holding only an
empty-string camera usage description. -/
def fsEmptyCameraDesc : FS :=
  ⟨"/cam", [⟨["Info.plist"], EntryKind.file, some "PLIST"⟩],
   noParse,
   (fun s => if s = "PLIST" then
      some (PVal.dict [("NSCameraUsageDescription", PVal.str "")])
    else none),
   noParse⟩

/-- A root with one Kotlin source file containing matches of the first and
the second secret pattern. -/
def fsSecret : FS :=
  ⟨"/s",
   [⟨["Config.kt"], EntryKind.file,
     some "val x = 1\napi_key = \"abcdefgh12\"\nval sk = \"sk_live_abcdefghijklmnopqrstuv\"\n"⟩],
   noParse, noParse, noParse⟩

/-- The report of scanning the empty root. -/
def reportEmpty : Report :=
  mkReport fsEmpty ⟨"native", []⟩ [warnF "common" "security" "No .gitignore found"]

/-! Helper lemmas. -/

theorem bind_ok_eq {α β : Type} (a : α) (f : α → Except Unit β) :
    (Bind.bind (Except.ok a) f : Except Unit β) = f a := rfl

theorem filterHead_eq_find {α : Type} (p : α → Bool) (l : List α) :
    (l.filter p).head? = l.find? p := by
  induction l with
  | nil => rfl
  | cons a t ih =>
    by_cases h : p a = true
    · simp [List.filter_cons, List.find?_cons, h]
    · simp [List.filter_cons, List.find?_cons, h, ih]

theorem countSev_sum (l : List Finding) :
    countSev Severity.error l + countSev Severity.warning l + countSev Severity.pass l
      = l.length := by
  induction l with
  | nil => rfl
  | cons f t ih =>
    cases hf : f.severity <;>
      simp only [countSev, List.filter_cons, hf, List.length_cons] at ih ⊢ <;>
      simp <;> omega

/-- C1: for every completed scan, the summary counts sum to the length of
the findings list, and each count equals the number of findings of the
matching severity. -/
theorem c1_summary_invariant (fs : FS) (r : Report) (h : scan fs = Except.ok r) :
    r.summary.errors + r.summary.warnings + r.summary.passes = r.issues.length
    ∧ r.summary.errors = countSev Severity.error r.issues
    ∧ r.summary.warnings = countSev Severity.warning r.issues
    ∧ r.summary.passes = countSev Severity.pass r.issues := by
  unfold scan at h
  cases hs : scanIssues fs with
  | error e => rw [hs] at h; exact absurd h (by simp [Except.map])
  | ok pr =>
    rw [hs] at h
    simp only [Except.map, Except.ok.injEq] at h
    subst h
    exact ⟨countSev_sum _, rfl, rfl, rfl⟩

/-- C1 witness: the invariant holds of the concrete report of scanning the
empty root, which carries one warning finding. -/
theorem c1_summary_invariant_witness :
    reportEmpty.summary.errors + reportEmpty.summary.warnings + reportEmpty.summary.passes
      = reportEmpty.issues.length :=
  (c1_summary_invariant fsEmpty reportEmpty rfl).1

/-- C9: whenever the four applicable rule-set dispatches succeed, the scan
succeeds and the report's findings list is exactly their concatenation in
the fixed order common, framework-specific, ios, android; the aggregation
neither sorts nor filters nor deduplicates. -/
theorem c9_aggregation_order (fs : FS) (sig : Sig) (l1 l2 l3 l4 : List Finding)
    (hd : detect_project_type fs = Except.ok sig)
    (h1 : check_common fs = Except.ok l1)
    (h2 : frameworkCheck fs sig.framework = Except.ok l2)
    (h3 : platformIosCheck fs sig = Except.ok l3)
    (h4 : platformAndroidCheck fs sig = Except.ok l4) :
    scan fs = Except.ok (mkReport fs sig (l1 ++ l2 ++ l3 ++ l4))
    ∧ (mkReport fs sig (l1 ++ l2 ++ l3 ++ l4)).issues = l1 ++ l2 ++ l3 ++ l4 := by
  refine ⟨?_, rfl⟩
  unfold scan scanIssues
  simp only [hd, h1, h2, h3, h4, bind_ok_eq]
  rfl

/-- C9 witness: the concatenation shape instantiated on the concrete
Flutter-shaped tree, whose common, flutter and ios rule sets each
produce findings and whose android rule set does not run. -/
theorem c9_aggregation_order_witness :
    scan fsFlutter = Except.ok (mkReport fsFlutter ⟨"flutter", ["ios"]⟩
      ([warnF "common" "security" "No .gitignore found"]
        ++ [okF "flutter" "version" "Version in pubspec.yaml: 1.0.0+1",
            okF "flutter" "config" "Dart SDK constraint defined",
            warnF "flutter" "config"
              "ios/Podfile.lock not found. Should be committed to version control."]
        ++ [errF "ios" "config" "Info.plist not found",
            errF "ios" "privacy" "PrivacyInfo.xcprivacy not found. Required since iOS 17.",
            errF "ios" "assets" "AppIcon.appiconset not found"]
        ++ [])) :=
  (c9_aggregation_order fsFlutter ⟨"flutter", ["ios"]⟩
    [warnF "common" "security" "No .gitignore found"]
    [okF "flutter" "version" "Version in pubspec.yaml: 1.0.0+1",
     okF "flutter" "config" "Dart SDK constraint defined",
     warnF "flutter" "config"
       "ios/Podfile.lock not found. Should be committed to version control."]
    [errF "ios" "config" "Info.plist not found",
     errF "ios" "privacy" "PrivacyInfo.xcprivacy not found. Required since iOS 17.",
     errF "ios" "assets" "AppIcon.appiconset not found"]
    [] (by rfl) (by rfl) (by rfl) (by rfl) (by rfl)).1

/-- C5: a root carrying both the Flutter signature (pubspec.yaml plus lib)
and a React-Native-shaped package.json classifies as flutter: the Flutter
rule is checked first and returns immediately. -/
theorem c5_flutter_precedence (fs : FS) (c : String) (jv : JValue)
    (deps : List (String × JValue))
    (hp : pathExists fs ["pubspec.yaml"] = true)
    (hl : pathExists fs ["lib"] = true)
    (hpkg : pathExists fs ["package.json"] = true)
    (hr : readText fs ["package.json"] = some c)
    (hj : fs.jparse c = some jv)
    (hd : combinedDeps jv = Except.ok deps)
    (hrn : hasDep deps "react-native" = true ∨ hasDep deps "expo" = true) :
    detect_project_type fs = Except.ok ⟨"flutter", fwPlatforms fs⟩ := by
  unfold detect_project_type
  simp [hp, hl]

/-- C5 witness: the concrete tree holding pubspec.yaml, lib and a
package.json with a react-native dependency classifies as flutter. -/
theorem c5_flutter_precedence_witness :
    detect_project_type fsBoth = Except.ok ⟨"flutter", fwPlatforms fsBoth⟩ :=
  c5_flutter_precedence fsBoth "PKG"
    (JValue.obj [("dependencies", JValue.obj [("react-native", JValue.str "0.73.0")])])
    [("react-native", JValue.str "0.73.0")]
    (by rfl) (by rfl) (by rfl) (by rfl) (by rfl) (by rfl) (Or.inl (by rfl))

/-- C7: the Android target-SDK sub-check emits a pass finding when the
extracted value is 34 or more, a warning when it is below 34, and no
finding at all when the pattern extracts nothing. -/
theorem c7_target_sdk_boundary (content : String) :
    (∀ n, searchTargetSdk content = some n →
      (34 ≤ n → sdkFindings content
          = [okF "android" "config" ("targetSdkVersion: " ++ toString n)])
      ∧ (n < 34 → sdkFindings content
          = [warnF "android" "config"
              ("targetSdkVersion is " ++ toString n ++ ". Google Play requires 34+ for new apps.")]))
    ∧ (searchTargetSdk content = none → sdkFindings content = []) := by
  constructor
  · intro n h
    refine ⟨fun hn => ?_, fun hn => ?_⟩
    · unfold sdkFindings
      rw [h]
      simp [Nat.not_lt.mpr hn]
    · unfold sdkFindings
      rw [h]
      simp [hn]
  · intro h
    unfold sdkFindings
    rw [h]

/-- C7 witness: the boundary value 34 in the Version spelling extracts and
produces exactly the pass finding. -/
theorem c7_target_sdk_boundary_witness :
    sdkFindings "targetSdkVersion 34" = [okF "android" "config" "targetSdkVersion: 34"] := by
  have h := ((c7_target_sdk_boundary "targetSdkVersion 34").1 34 (by rfl)).1 (by omega)
  simpa using h

/-- C10: a catalogued permission key whose plist value is falsy (the empty
string in particular) is skipped by the permission loop entirely: the step
leaves the accumulated findings and the found-permissions names unchanged,
so it is neither warned about nor counted. -/
theorem c10_falsy_permission_skipped (d : List (String × PVal)) (key name : String)
    (acc : List Finding × List String × Option Unit) (v : PVal)
    (hk : (key, name) ∈ permissionKeys)
    (hv : alookup d key = some v)
    (ht : pvTruthy v = false) :
    permStep (PVal.dict d) acc (key, name) = acc := by
  obtain ⟨a, b, c⟩ := acc
  cases c with
  | some u => rfl
  | none => simp [permStep, pget, hv, ht]

/-- C10 witness: the loop step at an empty-string camera description
leaves the empty accumulator untouched. -/
theorem c10_falsy_permission_skipped_witness :
    permStep (PVal.dict [("NSCameraUsageDescription", PVal.str "")])
      ([], [], none) ("NSCameraUsageDescription", "Camera") = ([], [], none) :=
  c10_falsy_permission_skipped [("NSCameraUsageDescription", PVal.str "")]
    "NSCameraUsageDescription" "Camera" ([], [], none) (PVal.str "")
    (by decide) (by rfl) (by rfl)

/-- C6 counterexample: the camera usage description is present in the
parsed Info.plist as the empty string, whose trimmed length 0 is below 10,
yet the iOS check emits no privacy warning — indeed no warning at all: the
falsy value is skipped before the length test.  This refutes the claim for
the below-10 lengths in general; only non-empty short values warn. -/
theorem c6_counterexample :
    check_ios fsEmptyCameraDesc "native" = Except.ok
      [okF "ios" "config" "Info.plist found at Info.plist",
       errF "ios" "config" "CFBundleIdentifier missing from Info.plist",
       errF "ios" "version" "CFBundleShortVersionString missing",
       errF "ios" "version" "CFBundleVersion (build number) missing",
       errF "ios" "privacy" "PrivacyInfo.xcprivacy not found. Required since iOS 17.",
       errF "ios" "assets" "AppIcon.appiconset not found"]
    ∧ countSev Severity.warning
      [okF "ios" "config" "Info.plist found at Info.plist",
       errF "ios" "config" "CFBundleIdentifier missing from Info.plist",
       errF "ios" "version" "CFBundleShortVersionString missing",
       errF "ios" "version" "CFBundleVersion (build number) missing",
       errF "ios" "privacy" "PrivacyInfo.xcprivacy not found. Required since iOS 17.",
       errF "ios" "assets" "AppIcon.appiconset not found"] = 0 :=
  ⟨by rfl, by rfl⟩

/-- C6 amended: for a catalogued permission key present in the plist with a
non-empty string value, the permission loop step warns exactly when the
stripped value is shorter than 10 characters, and otherwise accumulates the
display name into the found-permissions list without warning. -/
theorem c6_short_description_boundary (d : List (String × PVal)) (key name v : String)
    (l : List Finding) (found : List String)
    (hk : (key, name) ∈ permissionKeys)
    (hv : alookup d key = some (PVal.str v))
    (hne : v ≠ "") :
    permStep (PVal.dict d) (l, found, none) (key, name)
      = if (pystrip v).length < 10
        then (l ++ [warnF "ios" "privacy" (shortPermMsg name v)], found, none)
        else (l, found ++ [name], none) := by
  simp only [permStep, pget, hv]
  simp [pvTruthy, hne]

/-- C6 amended witness: a 9-character camera description warns. -/
theorem c6_short_description_boundary_witness :
    permStep (PVal.dict [("NSCameraUsageDescription", PVal.str "Too short")])
      ([], [], none) ("NSCameraUsageDescription", "Camera")
      = ([warnF "ios" "privacy" (shortPermMsg "Camera" "Too short")], [], none) := by
  have h := c6_short_description_boundary
    [("NSCameraUsageDescription", PVal.str "Too short")]
    "NSCameraUsageDescription" "Camera" "Too short" [] []
    (by decide) (by rfl) (by decide)
  simpa using h

/-- C4 counterexample: a root whose only build.gradle lies at a nested,
non-conventional location.  The claimed two-tier policy would return that
raw recursive match (with a single match the choice of exclusion filter
cannot matter: the match survives it or is restored by the raw fallback),
but find_build_gradle has no recursive tier and returns none. -/
theorem c4_counterexample :
    find_build_gradle fsNestedGradle = none
    ∧ specLocate (pathExists fsNestedGradle) gradleCandidates
        (globName fsNestedGradle "build.gradle") (fun _ => true)
        = some ["modules", "app", "build.gradle"] :=
  ⟨by rfl, by rfl⟩

/-- C4 amended: the two-tier policy — conventional paths first, then the
recursive search filtered by the full-path substring denylist, with
fallback to the first raw match — is exactly what the iOS manifest and
Android manifest locators implement; the build-descriptor locator instead
only consults its four conventional paths and never searches. -/
theorem c4_locator_policy (fs : FS) :
    find_info_plist fs
      = specLocate (pathExists fs) plistCandidates (globName fs "Info.plist") (plistKeep fs)
    ∧ find_android_manifest fs
      = specLocate (pathExists fs) manifestCandidates (globEndsSeq fs manifestSuffix)
          (manifestKeep fs)
    ∧ find_build_gradle fs = gradleCandidates.find? (fun p => pathExists fs p) := by
  refine ⟨?_, ?_, rfl⟩
  · simp only [find_info_plist, specLocate, filterHead_eq_find]
  · simp only [find_android_manifest, specLocate, filterHead_eq_find]

/-- C3 counterexample: a package.json that parses to a JSON array — valid
JSON of unexpected shape — makes the classifier raise (AttributeError at
pkg.get) instead of falling through to native. -/
theorem c3_counterexample :
    detect_project_type fsPkgArray = Except.error () := by rfl

/-- C3 amended: the classifier treats a read failure, a JSON decode
failure, or an object document lacking both dependency keys as no match
and falls through to the native signature; and it is total whenever every
parsed package.json document allows the dependency merge — but a document
of unexpected shape (non-object, or with non-object dependency values)
raises instead of falling through, as the counterexample shows. -/
theorem c3_classifier_fallthrough (fs : FS) :
    ((pathExists fs ["pubspec.yaml"] && pathExists fs ["lib"]) = false →
      ((readText fs ["package.json"] = none →
          detect_project_type fs = Except.ok (nativeSig fs))
       ∧ (∀ c, readText fs ["package.json"] = some c → fs.jparse c = none →
            detect_project_type fs = Except.ok (nativeSig fs))
       ∧ (∀ c kvs, readText fs ["package.json"] = some c →
            fs.jparse c = some (JValue.obj kvs) →
            alookup kvs "dependencies" = none →
            alookup kvs "devDependencies" = none →
            detect_project_type fs = Except.ok (nativeSig fs))))
    ∧ ((∀ s jv, fs.jparse s = some jv → ∃ deps, combinedDeps jv = Except.ok deps) →
        ∃ sig, detect_project_type fs = Except.ok sig) := by
  constructor
  · intro hfl
    refine ⟨fun hr => ?_, fun c hr hj => ?_, fun c kvs hr hj h1 h2 => ?_⟩
    · unfold detect_project_type
      rw [hfl]
      cases hpkg : pathExists fs ["package.json"] <;> simp [hr]
    · unfold detect_project_type
      rw [hfl]
      cases hpkg : pathExists fs ["package.json"] <;> simp [hr, hj]
    · unfold detect_project_type
      rw [hfl]
      cases hpkg : pathExists fs ["package.json"] <;>
        simp [hr, hj, combinedDeps, jgetD, h1, h2, mergeDicts, hasDep, bind_ok_eq]
  · intro hdeps
    unfold detect_project_type
    split
    · exact ⟨⟨"flutter", fwPlatforms fs⟩, rfl⟩
    · split
      · split
        · exact ⟨nativeSig fs, rfl⟩
        · next c heq =>
          split
          · exact ⟨nativeSig fs, rfl⟩
          · next pkg hj =>
            obtain ⟨deps, hd⟩ := hdeps c pkg hj
            rw [hd, bind_ok_eq]
            split
            · exact ⟨⟨"react-native", fwPlatforms fs⟩, rfl⟩
            · exact ⟨nativeSig fs, rfl⟩
      · exact ⟨nativeSig fs, rfl⟩

/-- C3 amended witness: the tree whose package.json does not decode
classifies as native with no platforms. -/
theorem c3_classifier_fallthrough_witness :
    detect_project_type fsPkgBad = Except.ok (nativeSig fsPkgBad) :=
  ((c3_classifier_fallthrough fsPkgBad).1 (by rfl)).2.1 "BAD" (by rfl) (by rfl)

theorem exOk_exists {α : Type} (x : Except Unit α) (h : x.isOk = true) :
    ∃ a, x = Except.ok a := by
  cases x with
  | ok a => exact ⟨a, rfl⟩
  | error e => exact absurd h (by simp [Except.isOk, Except.toBool])

theorem gitignoreFindings_ok (fs : FS)
    (h : pathExists fs [".gitignore"] = true → (readText fs [".gitignore"]).isSome = true) :
    (gitignoreFindings fs).isOk = true := by
  unfold gitignoreFindings
  cases hp : pathExists fs [".gitignore"] with
  | false => rfl
  | true =>
    cases hr : readText fs [".gitignore"] with
    | none =>
      have h2 := h hp
      rw [hr] at h2
      exact absurd h2 (by simp)
    | some c =>
      by_cases hc : strContains c ".env" = true <;>
        simp [hc, Except.isOk, Except.toBool]

theorem readmeFindings_ok (fs : FS)
    (h : pathExists fs ["README.md"] = true → (readText fs ["README.md"]).isSome = true) :
    (readmeFindings fs).isOk = true := by
  unfold readmeFindings
  cases hp : pathExists fs ["README.md"] with
  | false => rfl
  | true =>
    cases hr : readText fs ["README.md"] with
    | none =>
      have h2 := h hp
      rw [hr] at h2
      exact absurd h2 (by simp)
    | some c =>
      by_cases hc : strContains (lowerStr c) "privacy" = true <;>
        simp [hc, Except.isOk, Except.toBool]

theorem check_common_ok (fs : FS)
    (hgi : pathExists fs [".gitignore"] = true → (readText fs [".gitignore"]).isSome = true)
    (hrm : pathExists fs ["README.md"] = true → (readText fs ["README.md"]).isSome = true) :
    (check_common fs).isOk = true := by
  obtain ⟨l2, h2⟩ := exOk_exists _ (gitignoreFindings_ok fs hgi)
  obtain ⟨l3, h3⟩ := exOk_exists _ (readmeFindings_ok fs hrm)
  unfold check_common
  rw [h2, bind_ok_eq, h3, bind_ok_eq]
  rfl

theorem check_flutter_ok (fs : FS)
    (h : pathExists fs ["pubspec.yaml"] = true → (readText fs ["pubspec.yaml"]).isSome = true) :
    (check_flutter fs).isOk = true := by
  unfold check_flutter
  cases hp : pathExists fs ["pubspec.yaml"] with
  | false => rfl
  | true =>
    cases hr : readText fs ["pubspec.yaml"] with
    | none =>
      have h2 := h hp
      rw [hr] at h2
      exact absurd h2 (by simp)
    | some c => rfl

theorem check_react_native_ok (fs : FS)
    (h : ∀ s jv, fs.jparse s = some jv → (rnPkgFindings fs jv).isOk = true) :
    (check_react_native fs).isOk = true := by
  unfold check_react_native
  split
  · split
    · rfl
    · next c hr =>
      split
      · rfl
      · next pkg hj =>
        obtain ⟨l, hl⟩ := exOk_exists _ (h c pkg hj)
        rw [hl, bind_ok_eq]
        rfl
  · rfl

theorem iconSection_ok (fs : FS)
    (h : ∀ s jv, fs.jparse s = some jv → (has1024 jv).isOk = true) :
    (iconSection fs).isOk = true := by
  unfold iconSection
  split
  · rfl
  · next p rest heq =>
    split
    · split
      · rfl
      · next c hr =>
        split
        · rfl
        · next jv hj =>
          obtain ⟨b, hb⟩ := exOk_exists _ (h c jv hj)
          rw [hb]
          cases b <;> rfl
    · rfl

theorem check_ios_ok (fs : FS) (fw : String)
    (h : ∀ s jv, fs.jparse s = some jv → (has1024 jv).isOk = true) :
    (check_ios fs fw).isOk = true := by
  obtain ⟨l3, h3⟩ := exOk_exists _ (iconSection_ok fs h)
  unfold check_ios
  rw [h3, bind_ok_eq]
  rfl

theorem manifestSection_ok (fs : FS)
    (h : ∀ p, find_android_manifest fs = some p → (readText fs p).isSome = true) :
    (manifestSection fs).isOk = true := by
  unfold manifestSection
  split
  · rfl
  · next p hm =>
    split
    · next hr =>
      have h2 := h p hm
      rw [hr] at h2
      exact absurd h2 (by simp)
    · next c hr =>
      split <;> rfl

theorem check_android_ok (fs : FS) (fw : String)
    (h : ∀ p, find_android_manifest fs = some p → (readText fs p).isSome = true) :
    (check_android fs fw).isOk = true := by
  obtain ⟨l1, h1⟩ := exOk_exists _ (manifestSection_ok fs h)
  unfold check_android
  rw [h1, bind_ok_eq]
  rfl

/-- C2 counterexample: a root whose pubspec.yaml exists but cannot be read.
The Flutter rule set reads it with no exception handler, so the failure
propagates out of the check instead of degrading to a finding, refuting
the claim that every rule-set check converts every failure mode locally. -/
theorem c2_counterexample :
    check_flutter fsUnreadablePubspec = Except.error () := by rfl

/-- C2 amended: every rule-set check returns a finding list without an
uncaught failure provided the files it reads without a handler are
readable when present (pubspec.yaml for flutter; .gitignore and README.md
for common; the located manifest, opened by the XML parser whose handler
only catches parse errors, for android) and every parsed JSON document has
the shape its consumers expect (the icon-descriptor scan for ios, the
package-descriptor checks for react-native).  Missing files and parse
failures do degrade to findings, but an unreadable file at the bare reads,
or an unexpectedly shaped JSON document, propagates as an uncaught
exception, as the counterexample shows. -/
theorem c2_checks_degrade_to_findings (fs : FS) (fw : String)
    (hps : pathExists fs ["pubspec.yaml"] = true → (readText fs ["pubspec.yaml"]).isSome = true)
    (hgi : pathExists fs [".gitignore"] = true → (readText fs [".gitignore"]).isSome = true)
    (hrm : pathExists fs ["README.md"] = true → (readText fs ["README.md"]).isSome = true)
    (hman : ∀ p, find_android_manifest fs = some p → (readText fs p).isSome = true)
    (hicon : ∀ s jv, fs.jparse s = some jv → (has1024 jv).isOk = true)
    (hrn : ∀ s jv, fs.jparse s = some jv → (rnPkgFindings fs jv).isOk = true) :
    (∃ l, check_common fs = Except.ok l)
    ∧ (∃ l, check_flutter fs = Except.ok l)
    ∧ (∃ l, check_react_native fs = Except.ok l)
    ∧ (∃ l, check_ios fs fw = Except.ok l)
    ∧ (∃ l, check_android fs fw = Except.ok l) :=
  ⟨exOk_exists _ (check_common_ok fs hgi hrm),
   exOk_exists _ (check_flutter_ok fs hps),
   exOk_exists _ (check_react_native_ok fs hrn),
   exOk_exists _ (check_ios_ok fs fw hicon),
   exOk_exists _ (check_android_ok fs fw hman)⟩

/-- C2 amended witness: all five rule sets succeed on the concrete readable
tree. -/
theorem c2_checks_degrade_to_findings_witness :
    (∃ l, check_common fsReadable = Except.ok l)
    ∧ (∃ l, check_flutter fsReadable = Except.ok l)
    ∧ (∃ l, check_react_native fsReadable = Except.ok l)
    ∧ (∃ l, check_ios fsReadable "flutter" = Except.ok l)
    ∧ (∃ l, check_android fsReadable "flutter" = Except.ok l) :=
  c2_checks_degrade_to_findings fsReadable "flutter"
    (fun _ => by rfl) (fun _ => by rfl) (fun _ => by rfl)
    (fun p hp => absurd hp (by simp [find_android_manifest, manifestCandidates, pathExists,
      entryAt, fsReadable, globEndsSeq, manifestSuffix, listEnds, listStarts]))
    (fun s jv hj => absurd hj (by simp [fsReadable, noParse]))
    (fun s jv hj => absurd hj (by simp [fsReadable, noParse]))

theorem flatMap_len_le {α β : Type} (f : α → List β) (l : List α)
    (h : ∀ a, (f a).length ≤ 1) :
    (l.flatMap f).length ≤ l.length := by
  induction l with
  | nil => simp
  | cons a t ih =>
    have ha := h a
    simp only [List.flatMap_cons, List.length_append, List.length_cons]
    omega

/-- C8: the secret scan examines at most the first 200 candidate files;
each file contributes at most one warning; within a file the first pattern
of the fixed order that matches determines the message and the loop stops;
and the concrete file holding an Android-style api_key assignment next to
a Stripe-style key triggers exactly one warning, carrying the first
pattern's message. -/
theorem c8_secret_scan (platform : String) (seps : List Char) (fs : FS)
    (files : List Path) (c : String) :
    secretScan platform seps fs files = secretScan platform seps fs (files.take 200)
    ∧ (secretScan platform seps fs files).length ≤ 200
    ∧ (∀ p, (perFileSecret platform seps fs p).length ≤ 1)
    ∧ (matchKeySecret seps c = true →
        firstSecret seps c = some "Possible hardcoded API key/secret")
    ∧ secretScan "android" ['='] fsSecret (secretFilesAndroid fsSecret)
        = [warnF "android" "security" "Possible hardcoded API key/secret found in Config.kt"] := by
  have hper : ∀ p, (perFileSecret platform seps fs p).length ≤ 1 := by
    intro p
    unfold perFileSecret
    split
    · simp
    · split <;> simp
  refine ⟨?_, ?_, hper, fun h => ?_, by rfl⟩
  · unfold secretScan
    rw [List.take_take]
    norm_num
  · unfold secretScan
    calc ((files.take 200).flatMap (perFileSecret platform seps fs)).length
        ≤ (files.take 200).length := flatMap_len_le _ _ hper
      _ ≤ 200 := by simp
  · unfold firstSecret
    rw [if_pos h]

/-- C8 witness: the first-pattern-wins conjunct instantiated at the
Android-style assignment text. -/
theorem c8_secret_scan_witness :
    firstSecret ['='] "api_key = \"abcdefgh12\"" = some "Possible hardcoded API key/secret" :=
  (c8_secret_scan "android" ['='] fsEmpty [] "api_key = \"abcdefgh12\"").2.2.2.1 (by rfl)

end CheckProject
